import Mathlib

/-!
Verification of `prepare_gbif_data.py`: a linear batch pipeline that loads a
GBIF occurrence table, cleans it (drops rows without coordinates, parses and
century-corrects dates, derives year/month/day), attaches point geometries,
filters the points to the Mesoamerican-biological-corridor polygon, and
exports the filtered table to CSV.

The script is embedded shallowly:
* a pandas DataFrame is a `List` of row structures whose cells are `Option`
  values (`none` models NaN/NaT);
* machine floats are embedded as exact rationals `ℚ` (every literal in the
  script is an exact decimal, and the pipeline performs no float arithmetic
  on the data other than the geometric predicates, which we evaluate
  exactly);
* `pd.to_datetime(..., format="%m/%d/%y")` keeps its default
  `errors="raise"` behaviour, so the column parse is `Except`-valued;
* shapely's `Point.within(Polygon)` (strict interior containment, boundary
  excluded) is modelled by an exact even-odd ray-crossing count together
  with an on-boundary test;
* the CSV file written by `to_csv` / re-read by `read_csv` is modelled as a
  list of records of typed cells: pandas prints each scalar with a
  round-tripping textual codec (float `repr`), so a cell is identified with
  the value its text denotes.
-/

/-! ### Dates and the `%m/%d/%y` parse -/

/-- A calendar date as carried by the pandas datetime column. -/
structure Date where
  year : Int
  month : Int
  day : Int
deriving DecidableEq

/-- Value of a decimal digit character (codepoints 48–57), `none` on a
non-digit. -/
def digit? (c : Char) : Option Nat :=
  if 48 ≤ c.toNat ∧ c.toNat ≤ 57 then some (c.toNat - 48) else none

/-- Parse a one- or two-digit numeric field (strptime accepts both for
`%m`, `%d` and `%y`). -/
def parseNat2 : List Char → Option Nat
  | [c] => digit? c
  | [c₁, c₂] =>
    match digit? c₁, digit? c₂ with
    | some a, some b => some (a * 10 + b)
    | _, _ => none
  | _ => none

/-- Split a character list on the separator `'/'`. -/
def splitSlash : List Char → List (List Char)
  | [] => [[]]
  | c :: rest =>
    let r := splitSlash rest
    if c = '/' then [] :: r
    else
      match r with
      | [] => [[c]]
      | g :: gs => (c :: g) :: gs

/-- The strptime two-digit-year pivot: `00`–`68` map to `2000`–`2068` and
`69`–`99` map to `1969`–`1999`. -/
def pivotYear (yy : Nat) : Int :=
  if yy ≤ 68 then 2000 + yy else 1900 + yy

/-- Parse one cell against the fixed source format `"%m/%d/%y"`: exactly
three `/`-separated fields of one or two digits, month in 1–12 and day in
1–31.  (pandas additionally validates the day against the month's length;
that refinement is irrelevant to every property below.) -/
def parseMDY (s : String) : Option Date :=
  match splitSlash s.data with
  | [ms, ds, ys] =>
    match parseNat2 ms, parseNat2 ds, parseNat2 ys with
    | some m, some d, some y =>
      if 1 ≤ m ∧ m ≤ 12 ∧ 1 ≤ d ∧ d ≤ 31 then
        some { year := pivotYear y, month := (m : Int), day := (d : Int) }
      else none
    | _, _, _ => none
  | _ => none

/-- Model of `pd.to_datetime` on a single cell with the script's arguments:
`format="%m/%d/%y"` and the default `errors="raise"`.  A missing value
(NaN) passes through as NaT; a string that does not match the format raises
`ValueError`, which the embedding surfaces as `Except.error`. -/
def to_datetime_cell (cell : Option String) : Except String (Option Date) :=
  match cell with
  | none => Except.ok none
  | some s =>
    match parseMDY s with
    | some d => Except.ok (some d)
    | none => Except.error ("ValueError: time data " ++ s ++
        " does not match format %m/%d/%y")

/-- Source lines 24–29:

```
def correct_future_dates(date_value):
    if pd.notna(date_value):  # Check if date is valid
        if date_value.year >= 2026:
            corrected_year = date_value.year - 100  # Convert 20XX → 19XX
            return date_value.replace(year=corrected_year)
    return date_value  # Return unchanged date if valid
```
-/
def correct_future_dates (date_value : Option Date) : Option Date :=
  match date_value with
  | some d =>
    if d.year ≥ 2026 then
      some { d with year := d.year - 100 }
    else some d
  | none => none

/-- Model of `strftime("%Y-%m-%dT%H:%M:%S")` on a date with no
time-of-day: four-digit year, zero-padded two-digit month and day, zero
time components.  (Years in this pipeline lie in 1969–2068, so the
four-digit form is exact.) -/
def formatISO (d : Date) : String :=
  let y := d.year.toNat
  let m := d.month.toNat
  let dd := d.day.toNat
  ⟨[Nat.digitChar (y / 1000 % 10), Nat.digitChar (y / 100 % 10),
    Nat.digitChar (y / 10 % 10), Nat.digitChar (y % 10), '-',
    Nat.digitChar (m / 10 % 10), Nat.digitChar (m % 10), '-',
    Nat.digitChar (dd / 10 % 10), Nat.digitChar (dd % 10)] ++
    "T00:00:00".data⟩

/-! ### Row shapes along the cleaning stage

`RawRow` is a row of the loaded `data/occurrence.txt` projected to the
columns the script touches (every other input column is discarded at
line 52 and never read before that).  Each cell is `Option`-valued: `none`
is pandas NaN. -/

structure RawRow where
  decimalLatitude : Option ℚ
  decimalLongitude : Option ℚ
  date : Option String
  type : Option String
  basisOfRecord : Option String
  gbifID : Option String
  occurrenceID : Option String

/-- Row after `df.dropna(subset=["decimalLatitude", "decimalLongitude"])`
and the rename to `latitude`/`longitude`: both coordinates are present. -/
structure Row1 where
  latitude : ℚ
  longitude : ℚ
  date : Option String
  type : Option String
  basisOfRecord : Option String
  gbifID : Option String
  occurrenceID : Option String

/-- Row after the `date` column has been parsed to datetimes. -/
structure Row2 where
  latitude : ℚ
  longitude : ℚ
  date : Option Date
  type : Option String
  basisOfRecord : Option String
  gbifID : Option String
  occurrenceID : Option String

/-- Row after `year`, `month`, `day` have been derived from `date`. -/
structure Row3 where
  latitude : ℚ
  longitude : ℚ
  date : Option Date
  year : Option Int
  month : Option Int
  day : Option Int
  type : Option String
  basisOfRecord : Option String
  gbifID : Option String
  occurrenceID : Option String

/-- Final cleaned row: the `cols_to_keep` projection minus the dropped
`date` column plus the derived `system:time_start` string (field
`time_start` here, since `:` cannot occur in a Lean identifier). -/
structure CleanRow where
  latitude : ℚ
  longitude : ℚ
  year : Option Int
  month : Option Int
  day : Option Int
  type : Option String
  basisOfRecord : Option String
  gbifID : Option String
  occurrenceID : Option String
  time_start : Option String
deriving DecidableEq

/-- Lines 12–18: `df.dropna(subset=["decimalLatitude", "decimalLongitude"])`
followed by the rename `decimalLatitude → latitude`,
`decimalLongitude → longitude`.  Rows missing either coordinate are
removed; all other cells are carried over unchanged. -/
def dropnaCoords : List RawRow → List Row1
  | [] => []
  | r :: rs =>
    match r.decimalLatitude, r.decimalLongitude with
    | some lat, some lon =>
      { latitude := lat, longitude := lon, date := r.date, type := r.type,
        basisOfRecord := r.basisOfRecord, gbifID := r.gbifID,
        occurrenceID := r.occurrenceID } :: dropnaCoords rs
    | _, _ => dropnaCoords rs

/-- Line 21: `df["date"] = pd.to_datetime(df["date"], format="%m/%d/%y")`.
The first malformed cell aborts the whole column parse (default
`errors="raise"`). -/
def to_datetime : List Row1 → Except String (List Row2)
  | [] => Except.ok []
  | r :: rs =>
    match to_datetime_cell r.date with
    | Except.error e => Except.error e
    | Except.ok d =>
      match to_datetime rs with
      | Except.error e => Except.error e
      | Except.ok rest =>
        Except.ok
          ({ latitude := r.latitude, longitude := r.longitude, date := d,
             type := r.type, basisOfRecord := r.basisOfRecord,
             gbifID := r.gbifID, occurrenceID := r.occurrenceID } :: rest)

/-- Line 32: `df["date"] = df["date"].apply(correct_future_dates)`. -/
def applyCorrection (r : Row2) : Row2 :=
  { r with date := correct_future_dates r.date }

/-- Lines 35–40: derive `year`, `month`, `day` from the datetime column
(`NaT` yields NaN) and coerce `year` to numeric — the column is already
numeric, so `pd.to_numeric(..., errors="coerce")` is the identity here. -/
def deriveYMD (r : Row2) : Row3 :=
  { latitude := r.latitude, longitude := r.longitude, date := r.date,
    year := r.date.map Date.year, month := r.date.map Date.month,
    day := r.date.map Date.day, type := r.type,
    basisOfRecord := r.basisOfRecord, gbifID := r.gbifID,
    occurrenceID := r.occurrenceID }

/-- Lines 52–61: the `cols_to_keep` projection (the row structures already
carry exactly those columns), the derivation of `system:time_start`, and
the drop of the now-redundant `date` column. -/
def toCleanRow (r : Row3) : CleanRow :=
  { latitude := r.latitude, longitude := r.longitude, year := r.year,
    month := r.month, day := r.day, type := r.type,
    basisOfRecord := r.basisOfRecord, gbifID := r.gbifID,
    occurrenceID := r.occurrenceID,
    time_start := r.date.map formatISO }

/-- Lines 32–61 of the script, after the coordinate drop and the
(possibly failing) date parse: century correction, year/month/day
derivation, `dropna(subset=["year"])`, column selection,
`dropna(subset=["date"])`, ISO-string derivation, drop of `date`. -/
def finishClean (df : List Row2) : List CleanRow :=
  let df3 := (df.map applyCorrection).map deriveYMD
  let df3 := df3.filter fun r => r.year.isSome
  let df3 := df3.filter fun r => r.date.isSome
  df3.map toCleanRow

/-- The whole cleaning stage (lines 12–61).  The only failure is the
`errors="raise"` date parse. -/
def cleanStage (df : List RawRow) : Except String (List CleanRow) :=
  match to_datetime (dropnaCoords df) with
  | Except.error e => Except.error e
  | Except.ok df2 => Except.ok (finishClean df2)

/-! ### Geometry: points, the MBC polygon, and shapely containment -/

/-- A shapely 2-D point. -/
structure Point where
  x : ℚ
  y : ℚ
deriving DecidableEq

/-- Twice the signed area of the triangle `o a b`; zero iff the three
points are collinear. -/
def cross (o a b : Point) : ℚ :=
  (a.x - o.x) * (b.y - o.y) - (a.y - o.y) * (b.x - o.x)

/-- The point `p` lies on the closed segment from `a` to `b`. -/
def OnSeg (p a b : Point) : Prop :=
  cross a b p = 0 ∧ min a.x b.x ≤ p.x ∧ p.x ≤ max a.x b.x ∧
    min a.y b.y ≤ p.y ∧ p.y ≤ max a.y b.y

instance (p a b : Point) : Decidable (OnSeg p a b) := by
  unfold OnSeg; infer_instance

/-- Consecutive vertex pairs of a ring (the ring lists its first vertex
again at the end, so this enumerates every boundary segment). -/
def edges (ring : List Point) : List (Point × Point) :=
  ring.zip (ring.drop 1)

/-- The point lies on the boundary of the ring. -/
def OnBoundary (p : Point) (ring : List Point) : Prop :=
  ∃ e ∈ edges ring, OnSeg p e.1 e.2

instance (p : Point) (ring : List Point) : Decidable (OnBoundary p ring) := by
  unfold OnBoundary; infer_instance

/-- The horizontal ray from `p` to the right properly crosses the edge
`a`–`b` (half-open in `y`, so a ray through a vertex is counted once). -/
def Crosses (p a b : Point) : Prop :=
  ((a.y ≤ p.y ∧ p.y < b.y) ∧ 0 < cross a b p) ∨
    ((b.y ≤ p.y ∧ p.y < a.y) ∧ cross a b p < 0)

instance (p a b : Point) : Decidable (Crosses p a b) := by
  unfold Crosses; infer_instance

/-- Number of boundary edges properly crossed by the rightward ray
from `p`. -/
def crossingCount (p : Point) (ring : List Point) : Nat :=
  (edges ring).countP fun e => decide (Crosses p e.1 e.2)

/-- A shapely polygon, reduced to its exterior ring (the script's polygon
has no holes). -/
structure Polygon where
  exterior : List Point

/-- Model of shapely's `point.within(polygon)`: true iff the point lies in
the strict interior of the polygon — a point on the boundary is *not*
within.  Computed by the exact even-odd ray-crossing rule. -/
def Within (p : Point) (poly : Polygon) : Prop :=
  ¬ OnBoundary p poly.exterior ∧ crossingCount p poly.exterior % 2 = 1

instance (p : Point) (poly : Polygon) : Decidable (Within p poly) := by
  unfold Within; infer_instance

/-- Spec §3/§8 vocabulary: the point lies within the polygon or on its
boundary ("within or on the boundary polygon"). -/
def InsideOrOnBoundary (p : Point) (poly : Polygon) : Prop :=
  Within p poly ∨ OnBoundary p poly.exterior

/-- Spec §3/§8 vocabulary: the point lies strictly outside the polygon —
neither in the interior nor on the boundary. -/
def StrictlyOutside (p : Point) (poly : Polygon) : Prop :=
  ¬ InsideOrOnBoundary p poly

/-- Lines 66–101: the literal vertex list of the Mesoamerican biological
corridor ring (longitude, latitude). -/
def mbc_coords : List (ℚ × ℚ) := [
    (-91.17999732980365, 13.63943856854202),
    (-87.99396217355365, 12.890920733564085),
    (-86.28009498605365, 11.171791270208502),
    (-86.60968482980365, 10.394749848494728),
    (-84.91779029855365, 9.203908557876208),
    (-84.58820045480365, 8.726417117304832),
    (-82.17120826730365, 7.704314168195366),
    (-81.31427467355365, 6.701561688309798),
    (-79.64435279855365, 6.963360801589284),
    (-80.14972389230365, 8.074313176857796),
    (-79.24884498605365, 8.661256539681315),
    (-78.67755592355365, 8.509171427457526),
    (-78.56769264230365, 7.747860548091974),
    (-77.68878639230365, 6.832479161099103),
    (-77.00763404855365, 8.400502150062856),
    (-77.16144264230365, 8.900122834773223),
    (-79.09503639230365, 9.962213910373398),
    (-80.06183326730365, 9.594105879246467),
    (-81.29230201730365, 9.095443159836616),
    (-82.02264812311589, 9.404240152262705),
    (-82.81366374811589, 9.945741454623418),
    (-83.47284343561589, 10.875001838805666),
    (-82.85760906061589, 14.794687086681176),
    (-83.12128093561589, 15.26155118610412),
    (-84.79120281061589, 16.128830744255552),
    (-88.41669109186589, 15.959896599637476),
    (-86.21942546686589, 21.615194199233745),
    (-87.99921062311589, 21.839721773016596),
    (-90.24042156061589, 21.533461083001235),
    (-91.62469890436589, 18.91527033275978),
    (-94.28339031061589, 18.519870571992328),
    (-93.93182781061589, 17.43308907587558),
    (-94.43719890436589, 15.85424027498519),
    (-91.17999732980365, 13.63943856854202)
]

/-- Line 104: `mbc_polygon = Polygon(mbc_coords)`. -/
def mbc_polygon : Polygon :=
  { exterior := mbc_coords.map fun c => { x := c.1, y := c.2 } }

/-! ### GeoDataFrame, spatial filter, histogram data -/

/-- Line 107: `geometry = [Point(xy) for xy in zip(df["longitude"],
df["latitude"])]` — one point per row, `x` = longitude, `y` = latitude. -/
def geometry (df : List CleanRow) : List Point :=
  df.map fun r => { x := r.longitude, y := r.latitude }

/-- A geopandas GeoDataFrame: the attribute table, the parallel geometry
column, and the coordinate reference system tag. -/
structure GeoDataFrame where
  df : List CleanRow
  geometry : List Point
  crs : String

/-- The rows of a GeoDataFrame paired with their geometries. -/
def GeoDataFrame.pairs (g : GeoDataFrame) : List (CleanRow × Point) :=
  g.df.zip g.geometry

/-- Line 109: `gdf = gpd.GeoDataFrame(df, geometry=geometry,
crs="EPSG:4326")`. -/
def makeGdf (df : List CleanRow) : GeoDataFrame :=
  { df := df, geometry := geometry df, crs := "EPSG:4326" }

/-- Line 112: `mbc_gdf = gdf[gdf.geometry.within(mbc_polygon)]` for an
arbitrary polygon argument — keep exactly the rows whose point is within
the polygon, in order, geometries untouched. -/
def spatialFilter (g : GeoDataFrame) (poly : Polygon) : GeoDataFrame :=
  let kept := (g.df.zip g.geometry).filter fun rp => decide (Within rp.2 poly)
  { df := kept.map Prod.fst, geometry := kept.map Prod.snd, crs := g.crs }

/-- Line 112 as written in the script: filter against `mbc_polygon`. -/
def mbc_gdf (gdf : GeoDataFrame) : GeoDataFrame :=
  spatialFilter gdf mbc_polygon

/-- Line 139: `year_counts = mbc_gdf["year"].value_counts().sort_index()`:
occurrence counts of each distinct non-null year, listed in ascending
order of year (`value_counts` drops NaN; `sort_index` sorts by year). -/
def year_counts (g : GeoDataFrame) : List (Int × Nat) :=
  let ys := g.df.filterMap fun r => r.year
  (ys.toFinset.sort (· ≤ ·)).map fun y => (y, ys.count y)

/-! ### CSV export and re-read

`mbc_gdf.to_csv("data/mbc_jaguar_occurence.csv", index=False)` writes a
comma-separated text file.  Every scalar is printed with a round-tripping
textual codec (pandas prints a float64 with `repr`, which `read_csv`
parses back to the identical value; strings and the WKT form
`POINT (x y)` of a geometry are likewise injective), so the embedding
identifies a cell of the file with the typed value its text denotes. -/

/-- One cell of the CSV file, identified with the value its text
denotes.  `empty` is the empty cell a NaN is written as. -/
inductive Cell where
  | str (s : String)
  | num (q : ℚ)
  | pt (p : Point)
  | empty
deriving DecidableEq

/-- Cell for an optional numeric value (NaN prints as the empty cell). -/
def numCell : Option Int → Cell
  | some n => Cell.num (n : ℚ)
  | none => Cell.empty

/-- Cell for an optional string value. -/
def strCell : Option String → Cell
  | some s => Cell.str s
  | none => Cell.empty

/-- The header row of the exported file: the cleaned schema in its column
order, then the geometry column geopandas appends. -/
def csvHeader : List Cell :=
  [Cell.str "latitude", Cell.str "longitude", Cell.str "year",
   Cell.str "month", Cell.str "day", Cell.str "type",
   Cell.str "basisOfRecord", Cell.str "gbifID", Cell.str "occurrenceID",
   Cell.str "system:time_start", Cell.str "geometry"]

/-- The data cells of one exported row, in column order. -/
def rowCells (r : CleanRow) (p : Point) : List Cell :=
  [Cell.num r.latitude, Cell.num r.longitude, numCell r.year,
   numCell r.month, numCell r.day, strCell r.type,
   strCell r.basisOfRecord, strCell r.gbifID, strCell r.occurrenceID,
   strCell r.time_start, Cell.pt p]

/-- Line 149: `mbc_gdf.to_csv(..., index=False)`.  With `index = true`
pandas would prepend the row-index artifact: an unnamed header cell and
the positional index in front of every data row; the script passes
`index=False`. -/
def to_csv (g : GeoDataFrame) (index : Bool) : List (List Cell) :=
  if index then
    (Cell.str "" :: csvHeader) ::
      g.pairs.enum.map fun ir =>
        Cell.num (ir.1 : ℚ) :: rowCells ir.2.1 ir.2.2
  else
    csvHeader :: g.pairs.map fun rp => rowCells rp.1 rp.2

/-- Parse one re-read cell as an optional string column value. -/
def parseStrCell : Cell → Option (Option String)
  | Cell.str s => some (some s)
  | Cell.empty => some none
  | _ => none

/-- Parse one re-read cell as an optional integer column value (pandas
reads the year/month/day columns back as floats; an integral float
denotes the integer). -/
def parseIntCell : Cell → Option (Option Int)
  | Cell.num q => if q.den = 1 then some (some q.num) else none
  | Cell.empty => some none
  | _ => none

/-- Parse one re-read data row against the exported schema. -/
def parseRow : List Cell → Option (CleanRow × Point)
  | [Cell.num lat, Cell.num lon, y, m, d, t, b, gid, oid, ts, Cell.pt p] =>
    match parseIntCell y, parseIntCell m, parseIntCell d, parseStrCell t,
        parseStrCell b, parseStrCell gid, parseStrCell oid,
        parseStrCell ts with
    | some y, some m, some d, some t, some b, some gid, some oid,
        some ts =>
      some ({ latitude := lat, longitude := lon, year := y, month := m,
              day := d, type := t, basisOfRecord := b, gbifID := gid,
              occurrenceID := oid, time_start := ts }, p)
    | _, _, _, _, _, _, _, _ => none
  | _ => none

/-- Parse the re-read data rows one by one. -/
def parseRows : List (List Cell) → Option (List (CleanRow × Point))
  | [] => some []
  | r :: rs =>
    match parseRow r, parseRows rs with
    | some x, some xs => some (x :: xs)
    | _, _ => none

/-- Model of `pd.read_csv` on the exported file: the first line must be
the expected header, the remaining lines are data rows. -/
def read_csv : List (List Cell) → Option (List (CleanRow × Point))
  | h :: rows => if h = csvHeader then parseRows rows else none
  | [] => none

/-- The (latitude, longitude, year) tuple of a row, compared by the
round-trip property. -/
def triple (rp : CleanRow × Point) : ℚ × ℚ × Option Int :=
  (rp.1.latitude, rp.1.longitude, rp.1.year)

/-! ### Concrete sample data used by the witnesses and counterexamples -/

/-- A well-formed input row (coordinates present, parseable date
`01/15/47`, the spec's inside-the-corridor coordinates). -/
def sampleRaw : RawRow :=
  { decimalLatitude := some 10, decimalLongitude := some (-85),
    date := some "01/15/47", type := some "Occurrence",
    basisOfRecord := some "PRESERVED_SPECIMEN", gbifID := some "1024",
    occurrenceID := some "occ-1" }

/-- The cleaned row the pipeline produces from `sampleRaw`. -/
def sampleClean : CleanRow :=
  { latitude := 10, longitude := -85, year := some 1947, month := some 1,
    day := some 15, type := some "Occurrence",
    basisOfRecord := some "PRESERVED_SPECIMEN", gbifID := some "1024",
    occurrenceID := some "occ-1",
    time_start := some "1947-01-15T00:00:00" }

/-- An input row whose `date` string matches no part of `%m/%d/%y`. -/
def badRaw : RawRow :=
  { decimalLatitude := some 10, decimalLongitude := some (-85),
    date := some "not-a-date", type := none, basisOfRecord := none,
    gbifID := none, occurrenceID := none }

/-- The first vertex of the corridor ring, as a point. -/
def vertexPoint : Point :=
  { x := -91.17999732980365, y := 13.63943856854202 }

/-- An input row located exactly at the first vertex of the corridor
ring. -/
def vertexRaw : RawRow :=
  { decimalLatitude := some 13.63943856854202,
    decimalLongitude := some (-91.17999732980365),
    date := some "01/01/00", type := none, basisOfRecord := none,
    gbifID := none, occurrenceID := none }

/-- The cleaned row the pipeline produces from `vertexRaw`; its geometry
is `vertexPoint`. -/
def vertexClean : CleanRow :=
  { latitude := 13.63943856854202, longitude := -91.17999732980365,
    year := some 2000, month := some 1, day := some 1, type := none,
    basisOfRecord := none, gbifID := none, occurrenceID := none,
    time_start := some "2000-01-01T00:00:00" }

/-! ### Helper lemmas -/

theorem digit?_le (c : Char) (n : Nat) (h : digit? c = some n) : n ≤ 9 := by
  unfold digit? at h
  split at h
  · injection h with h
    omega
  · cases h

theorem parseNat2_le : ∀ (cs : List Char) (n : Nat),
    parseNat2 cs = some n → n ≤ 99
  | [], _, h => by cases h
  | [c], n, h => Nat.le_trans (digit?_le c n h) (by omega)
  | [c₁, c₂], n, h => by
    cases h₁ : digit? c₁ with
    | none => simp [parseNat2, h₁] at h
    | some a =>
      cases h₂ : digit? c₂ with
      | none => simp [parseNat2, h₁, h₂] at h
      | some b =>
        simp [parseNat2, h₁, h₂] at h
        have ha := digit?_le c₁ a h₁
        have hb := digit?_le c₂ b h₂
        omega
  | _ :: _ :: _ :: _, _, h => by cases h

theorem pivotYear_lt (yy : Nat) (h : yy ≤ 99) : pivotYear yy < 2126 := by
  simp only [pivotYear]
  split <;> omega

/-- Every date the two-digit-year parse can produce has year in
1969–2068, in particular below 2126. -/
theorem parseMDY_year_lt (s : String) (d : Date)
    (h : parseMDY s = some d) : d.year < 2126 := by
  unfold parseMDY at h
  split at h
  · split at h
    · split at h
      · cases h
        exact pivotYear_lt _ (parseNat2_le _ _ (by assumption))
      · cases h
    · cases h
  · cases h

theorem dropnaCoords_filter (df : List RawRow) :
    dropnaCoords (df.filter fun raw =>
      raw.decimalLatitude.isSome && raw.decimalLongitude.isSome) =
      dropnaCoords df := by
  induction df with
  | nil => rfl
  | cons r rs ih =>
    cases hla : r.decimalLatitude <;> cases hlo : r.decimalLongitude <;>
      simp [dropnaCoords, List.filter, hla, hlo, ih]

theorem dropnaCoords_mem (df : List RawRow) (r1 : Row1)
    (h : r1 ∈ dropnaCoords df) :
    ∃ raw ∈ df, raw.decimalLatitude = some r1.latitude ∧
      raw.decimalLongitude = some r1.longitude ∧ raw.date = r1.date ∧
      raw.type = r1.type ∧ raw.basisOfRecord = r1.basisOfRecord ∧
      raw.gbifID = r1.gbifID ∧ raw.occurrenceID = r1.occurrenceID := by
  induction df with
  | nil => cases h
  | cons r rs ih =>
    rw [dropnaCoords] at h
    revert h
    cases hla : r.decimalLatitude with
    | none =>
      intro h
      obtain ⟨raw, hraw, hp⟩ := ih h
      exact ⟨raw, List.mem_cons_of_mem _ hraw, hp⟩
    | some lat =>
      cases hlo : r.decimalLongitude with
      | none =>
        intro h
        obtain ⟨raw, hraw, hp⟩ := ih h
        exact ⟨raw, List.mem_cons_of_mem _ hraw, hp⟩
      | some lon =>
        intro h
        rcases List.mem_cons.mp h with h | h
        · subst h
          exact ⟨r, List.mem_cons_self _ _, hla, hlo, rfl, rfl, rfl, rfl,
            rfl⟩
        · obtain ⟨raw, hraw, hp⟩ := ih h
          exact ⟨raw, List.mem_cons_of_mem _ hraw, hp⟩

theorem to_datetime_mem (rs : List Row1) (out : List Row2)
    (h : to_datetime rs = Except.ok out) (r2 : Row2) (hm : r2 ∈ out) :
    ∃ r1 ∈ rs, r2.latitude = r1.latitude ∧ r2.longitude = r1.longitude ∧
      r2.type = r1.type ∧ r2.basisOfRecord = r1.basisOfRecord ∧
      r2.gbifID = r1.gbifID ∧ r2.occurrenceID = r1.occurrenceID := by
  induction rs generalizing out with
  | nil =>
    cases h
    cases hm
  | cons r rs ih =>
    rw [to_datetime] at h
    revert h
    cases hc : to_datetime_cell r.date with
    | error e => intro h; cases h
    | ok d =>
      cases hrest : to_datetime rs with
      | error e => intro h; cases h
      | ok rest =>
        intro h
        cases h
        rcases List.mem_cons.mp hm with hm | hm
        · subst hm
          exact ⟨r, List.mem_cons_self _ _, rfl, rfl, rfl, rfl, rfl, rfl⟩
        · obtain ⟨r1, hr1, hp⟩ := ih rest hrest hm
          exact ⟨r1, List.mem_cons_of_mem _ hr1, hp⟩

theorem finishClean_mem (df : List Row2) (c : CleanRow)
    (h : c ∈ finishClean df) :
    c.year.isSome = true ∧ c.month.isSome = true ∧ c.day.isSome = true ∧
      c.time_start.isSome = true ∧
      ∃ r2 ∈ df, c.latitude = r2.latitude ∧ c.longitude = r2.longitude ∧
        c.type = r2.type ∧ c.basisOfRecord = r2.basisOfRecord ∧
        c.gbifID = r2.gbifID ∧ c.occurrenceID = r2.occurrenceID := by
  unfold finishClean at h
  simp only [List.mem_map, List.mem_filter, List.map_map] at h
  obtain ⟨r3, ⟨⟨hr3, hyear⟩, hdate⟩, rfl⟩ := h
  obtain ⟨r2, hr2, rfl⟩ := hr3
  rcases hd : (applyCorrection r2).date with _ | d
  · rw [Function.comp_apply, deriveYMD] at hdate
    simp [hd] at hdate
  · simp only [applyCorrection] at hd
    refine ⟨?_, ?_, ?_, ?_, r2, hr2, ?_, ?_, ?_, ?_, ?_, ?_⟩ <;>
      simp [toCleanRow, deriveYMD, applyCorrection, hd]

/-- The spec's inside-the-corridor scenario point `(-85, 10)` is in the
strict interior of the MBC polygon. -/
theorem within_sample_point : Within { x := -85, y := 10 } mbc_polygon := by
  norm_num [Within, OnBoundary, OnSeg, Crosses, crossingCount, mbc_polygon,
    mbc_coords, edges, cross]

/-- The first ring vertex lies on the boundary of the MBC polygon. -/
theorem onBoundary_vertex : OnBoundary vertexPoint mbc_polygon.exterior := by
  norm_num [OnBoundary, OnSeg, vertexPoint, mbc_polygon, mbc_coords, edges,
    cross]

/-- shapely `within` is strict: the first ring vertex is not within the
polygon. -/
theorem not_within_vertex : ¬ Within vertexPoint mbc_polygon :=
  fun w => w.1 onBoundary_vertex

/-- The row/geometry pairs of the filtered frame are exactly the pairs of
the input frame that pass the `within` test. -/
theorem pairs_spatialFilter (g : GeoDataFrame) (poly : Polygon) :
    (spatialFilter g poly).pairs =
      (g.df.zip g.geometry).filter fun rp => decide (Within rp.2 poly) := by
  unfold spatialFilter GeoDataFrame.pairs
  simp [List.zip_map']

theorem spatialFilter_df_sub (g : GeoDataFrame) (poly : Polygon) :
    ∀ r ∈ (spatialFilter g poly).df, r ∈ g.df := by
  intro r hr
  dsimp only [spatialFilter] at hr
  obtain ⟨rp, hrp, rfl⟩ := List.mem_map.mp hr
  exact (List.of_mem_zip (List.mem_filter.mp hrp).1).1

theorem parseIntCell_numCell (o : Option Int) :
    parseIntCell (numCell o) = some o := by
  cases o with
  | none => rfl
  | some n => simp [numCell, parseIntCell, Rat.den_intCast]

theorem parseStrCell_strCell (o : Option String) :
    parseStrCell (strCell o) = some o := by
  cases o <;> rfl

theorem parseRow_rowCells (r : CleanRow) (p : Point) :
    parseRow (rowCells r p) = some (r, p) := by
  simp [rowCells, parseRow, parseIntCell_numCell, parseStrCell_strCell]

theorem parseRows_map (l : List (CleanRow × Point)) :
    parseRows (l.map fun rp => rowCells rp.1 rp.2) = some l := by
  induction l with
  | nil => rfl
  | cons rp l ih => simp [parseRows, parseRow_rowCells, ih]

/-- Re-reading the exported file recovers exactly the exported
row/geometry pairs. -/
theorem read_csv_to_csv (g : GeoDataFrame) :
    read_csv (to_csv g false) = some g.pairs := by
  simp [to_csv, read_csv, parseRows_map]

theorem count_filterMap_year (df : List CleanRow) (y : Int) :
    (df.filterMap fun r => r.year).count y =
      df.countP fun r => decide (r.year = some y) := by
  induction df with
  | nil => rfl
  | cons r rs ih =>
    cases h : r.year with
    | none => simp [List.filterMap_cons, h, List.countP_cons, ih]
    | some z =>
      simp only [List.filterMap_cons, h, List.countP_cons, List.count_cons,
        ih]
      by_cases he : z = y <;> simp [he]

/-! ### The claims -/

/-- Claim C1.  The claim states that the cleaning stage turns rows whose
`date` string does not match `%m/%d/%y` into null-dated rows and never
raises on a malformed individual row.  The code does the opposite:
`pd.to_datetime` is called with its default `errors="raise"`, so the first
malformed date string aborts the whole stage with a `ValueError` — here
evaluated on a one-row table whose date is `"not-a-date"`.  (The code's
own comment at line 54, "Drop rows where the date couldn't be parsed",
documents the claimed null-dated behaviour, so the claim matches the
intent and the code contradicts it.) -/
theorem c1_malformed_date_raises :
    cleanStage [badRaw] =
      Except.error
        "ValueError: time data not-a-date does not match format %m/%d/%y" :=
  rfl

/-- Claim C2 (amended).  For every row of the geolocated table: if the row
is in the filtered table then its point lies within or on the boundary of
the MBC polygon, and if the row is absent from the filtered table then its
point lies strictly outside the polygon *or on its boundary*.  (The
original claim said absent rows lie strictly outside; shapely's `within`
is strict-interior containment, so a boundary point is absent yet not
strictly outside — see the counterexample.) -/
theorem c2_spatial_filter (g : GeoDataFrame) (rp : CleanRow × Point)
    (hg : rp ∈ g.pairs) :
    (rp ∈ (mbc_gdf g).pairs → InsideOrOnBoundary rp.2 mbc_polygon) ∧
    (rp ∉ (mbc_gdf g).pairs →
      StrictlyOutside rp.2 mbc_polygon ∨
        OnBoundary rp.2 mbc_polygon.exterior) := by
  rw [mbc_gdf, pairs_spatialFilter]
  constructor
  · intro hmem
    have := (List.mem_filter.mp hmem).2
    exact Or.inl (of_decide_eq_true this)
  · intro hmem
    have hnw : ¬ Within rp.2 mbc_polygon := by
      intro hw
      exact hmem (List.mem_filter.mpr ⟨hg, decide_eq_true hw⟩)
    by_cases hb : OnBoundary rp.2 mbc_polygon.exterior
    · exact Or.inr hb
    · exact Or.inl fun hio => hio.elim hnw hb

/-- Witness for claim C2: the spec's scenario point `(-85, 10)` is kept by
the filter, and the amended theorem applied to it yields containment. -/
theorem c2_spatial_filter_witness :
    InsideOrOnBoundary { x := -85, y := 10 } mbc_polygon := by
  have hmem : ((sampleClean, ({ x := -85, y := 10 } : Point))) ∈
      (makeGdf [sampleClean]).pairs := by
    simp [GeoDataFrame.pairs, makeGdf, geometry, sampleClean]
  refine (c2_spatial_filter (makeGdf [sampleClean])
    (sampleClean, { x := -85, y := 10 }) hmem).1 ?_
  rw [mbc_gdf, pairs_spatialFilter]
  exact List.mem_filter.mpr ⟨hmem, decide_eq_true within_sample_point⟩

/-- Counterexample to claim C2 as stated: a pipeline-reachable row whose
point is the first ring vertex is absent from the filtered table (shapely
`within` excludes the boundary) yet its point is on the boundary, not
strictly outside. -/
theorem c2_counterexample :
    cleanStage [vertexRaw] = Except.ok [vertexClean] ∧
    ¬ ∀ (g : GeoDataFrame), ∀ rp ∈ g.pairs,
        (rp ∈ (mbc_gdf g).pairs → InsideOrOnBoundary rp.2 mbc_polygon) ∧
        (rp ∉ (mbc_gdf g).pairs → StrictlyOutside rp.2 mbc_polygon) := by
  refine ⟨rfl, fun h => ?_⟩
  have hmem : ((vertexClean, vertexPoint)) ∈
      (makeGdf [vertexClean]).pairs := by
    simp [GeoDataFrame.pairs, makeGdf, geometry, vertexClean, vertexPoint]
  have habs : ((vertexClean, vertexPoint)) ∉
      (mbc_gdf (makeGdf [vertexClean])).pairs := by
    rw [mbc_gdf, pairs_spatialFilter]
    intro hmem2
    exact not_within_vertex (of_decide_eq_true (List.mem_filter.mp hmem2).2)
  exact (h (makeGdf [vertexClean]) (vertexClean, vertexPoint) hmem).2 habs
    (Or.inr onBoundary_vertex)

/-- Claim C3.  The century correction maps a non-null date with year
≥ 2026 to the same date with year − 100, leaves non-null dates with year
< 2026 unchanged, leaves the null date unchanged; and on the spec's
scenarios, `01/15/47` parses to 2047-01-15 and corrects to year 1947,
while `06/01/99` parses to 1999-06-01 and stays 1999. -/
theorem c3_century_correction (d : Date) :
    (2026 ≤ d.year →
      correct_future_dates (some d) =
        some { year := d.year - 100, month := d.month, day := d.day }) ∧
    (d.year < 2026 → correct_future_dates (some d) = some d) ∧
    correct_future_dates none = none ∧
    correct_future_dates (parseMDY "01/15/47") =
      some { year := 1947, month := 1, day := 15 } ∧
    correct_future_dates (parseMDY "06/01/99") =
      some { year := 1999, month := 6, day := 1 } := by
  refine ⟨fun h => ?_, fun h => ?_, rfl, by decide, by decide⟩
  · simp [correct_future_dates, h]
  · simp [correct_future_dates, not_le.mpr h]

/-- Witness for claim C3 at the parsed form of `01/15/47`. -/
theorem c3_century_correction_witness :
    correct_future_dates (some { year := 2047, month := 1, day := 15 }) =
      some { year := 1947, month := 1, day := 15 } :=
  (c3_century_correction { year := 2047, month := 1, day := 15 }).1
    (by decide)

/-- Claim C4.  Every record retained by the cleaning stage has a non-null
year; its coordinates (and carried-over fields) are the payload of
non-null coordinate cells of some input row, so no input row lacking
latitude or longitude contributes a record; dropping the
coordinate-incomplete input rows first changes nothing; the geolocated
table holds exactly the cleaned rows; and the filtered table is a subset
of them — hence every record of the cleaned, geolocated and filtered
tables has non-null latitude, longitude and year, and rows lacking either
coordinate are absent from every downstream table. -/
theorem c4_retained_records (df : List RawRow) (rows : List CleanRow)
    (h : cleanStage df = Except.ok rows) :
    (∀ r ∈ rows, r.year.isSome = true) ∧
    (∀ r ∈ rows, ∃ raw ∈ df,
      raw.decimalLatitude = some r.latitude ∧
      raw.decimalLongitude = some r.longitude ∧
      raw.type = r.type ∧ raw.basisOfRecord = r.basisOfRecord ∧
      raw.gbifID = r.gbifID ∧ raw.occurrenceID = r.occurrenceID) ∧
    cleanStage (df.filter fun raw =>
      raw.decimalLatitude.isSome && raw.decimalLongitude.isSome) =
      Except.ok rows ∧
    (makeGdf rows).df = rows ∧
    (∀ r ∈ (mbc_gdf (makeGdf rows)).df, r ∈ rows) := by
  have hstage := h
  rw [cleanStage] at hstage
  revert hstage
  cases hdt : to_datetime (dropnaCoords df) with
  | error e => intro hstage; cases hstage
  | ok df2 =>
    intro hstage
    cases hstage
    refine ⟨?_, ?_, ?_, rfl, ?_⟩
    · intro r hr
      exact (finishClean_mem df2 r hr).1
    · intro r hr
      obtain ⟨_, _, _, _, r2, hr2, hlat, hlon, hty, hb, hg, ho⟩ :=
        finishClean_mem df2 r hr
      obtain ⟨r1, hr1, h2lat, h2lon, h2ty, h2b, h2g, h2o⟩ :=
        to_datetime_mem _ _ hdt r2 hr2
      obtain ⟨raw, hraw, hplat, hplon, _, hpty, hpb, hpg, hpo⟩ :=
        dropnaCoords_mem _ _ hr1
      refine ⟨raw, hraw, ?_, ?_, ?_, ?_, ?_, ?_⟩ <;> simp_all
    · rw [cleanStage, dropnaCoords_filter, hdt]
    · intro r hr
      exact spatialFilter_df_sub (makeGdf _) mbc_polygon r hr

/-- Witness for claim C4 on the concrete one-row table `sampleRaw`. -/
theorem c4_retained_records_witness : sampleClean.year.isSome = true :=
  (c4_retained_records [sampleRaw] [sampleClean] rfl).1 sampleClean
    (List.mem_singleton.mpr rfl)

/-- Claim C5.  The geometrizer builds one point per cleaned row, in row
order, with x = longitude and y = latitude, and tags the container with
the geographic CRS EPSG:4326. -/
theorem c5_geometrizer (df : List CleanRow) :
    (makeGdf df).geometry =
      df.map (fun r => ({ x := r.longitude, y := r.latitude } : Point)) ∧
    (makeGdf df).geometry.length = df.length ∧
    (makeGdf df).crs = "EPSG:4326" :=
  ⟨rfl, by simp [makeGdf, geometry], rfl⟩

/-- Claim C6.  Exporting the filtered table and re-reading the file yields
a table with the same row count and the same set of
(latitude, longitude, year) tuples. -/
theorem c6_roundtrip (g : GeoDataFrame) :
    (read_csv (to_csv (mbc_gdf g) false)).map List.length =
      some ((mbc_gdf g).pairs.length) ∧
    (read_csv (to_csv (mbc_gdf g) false)).map
        (fun t => (t.map triple).toFinset) =
      some (((mbc_gdf g).pairs.map triple).toFinset) := by
  rw [read_csv_to_csv]
  exact ⟨rfl, rfl⟩

/-- Claim C7.  The histogram data counts the filtered rows grouped by
year: its year column is strictly ascending (so each distinct year
appears exactly once), a year appears iff some filtered row carries it (no
zero-filled gaps), and each entry's count is the number of filtered rows
with that year, which is positive. -/
theorem c7_histogram (g : GeoDataFrame) :
    List.Sorted (· < ·) ((year_counts (mbc_gdf g)).map Prod.fst) ∧
    (∀ y : Int, y ∈ (year_counts (mbc_gdf g)).map Prod.fst ↔
      some y ∈ (mbc_gdf g).df.map (fun r => r.year)) ∧
    (∀ p ∈ year_counts (mbc_gdf g),
      p.2 = (mbc_gdf g).df.countP (fun r => decide (r.year = some p.1)) ∧
        0 < p.2) := by
  have hfst : (year_counts (mbc_gdf g)).map Prod.fst =
      ((mbc_gdf g).df.filterMap fun r => r.year).toFinset.sort (· ≤ ·) := by
    simp only [year_counts, List.map_map]
    have hcomp : (Prod.fst ∘ fun y : Int =>
        (y, ((mbc_gdf g).df.filterMap fun r => r.year).count y)) = id := rfl
    rw [hcomp, List.map_id]
  refine ⟨?_, ?_, ?_⟩
  · rw [hfst]
    exact Finset.sort_sorted_lt _
  · intro y
    rw [hfst, Finset.mem_sort, List.mem_toFinset, List.mem_filterMap]
    simp
  · intro p hp
    simp only [year_counts, List.mem_map] at hp
    obtain ⟨y, hy, rfl⟩ := hp
    rw [Finset.mem_sort, List.mem_toFinset] at hy
    constructor
    · exact count_filterMap_year _ _
    · exact List.count_pos_iff.mpr hy

/-- Witness for claim C7: on the one-row filtered table built from
`sampleClean` the histogram has the single entry `(1947, 1)` and the
theorem applies to it. -/
theorem c7_histogram_witness :
    (1947, 1).2 = ((mbc_gdf (makeGdf [sampleClean])).df.countP
      (fun r => decide (r.year = some (1947, 1).1))) ∧ 0 < (1947, 1).2 := by
  have hdf : (mbc_gdf (makeGdf [sampleClean])).df = [sampleClean] := by
    dsimp only [mbc_gdf, spatialFilter, makeGdf, geometry]
    simp [sampleClean, decide_eq_true within_sample_point]
  refine (c7_histogram (makeGdf [sampleClean])).2.2 (1947, 1) ?_
  simp only [year_counts, hdf]
  simp [sampleClean, Finset.sort_singleton]

/-- Claim C8.  The export of the filtered table is the header followed by
one record per row; the geometry is a column (the last header cell is
"geometry" and the last cell of every data record is the row's geometry);
every data record has exactly as many cells as the header; and there is no
row-index artifact (the header is exactly the schema's column names, with
no unnamed index column). -/
theorem c8_export (g : GeoDataFrame) :
    to_csv (mbc_gdf g) false =
      csvHeader :: (mbc_gdf g).pairs.map (fun rp => rowCells rp.1 rp.2) ∧
    csvHeader.getLast? = some (Cell.str "geometry") ∧
    (∀ (r : CleanRow) (p : Point),
      (rowCells r p).length = csvHeader.length ∧
      (rowCells r p).getLast? = some (Cell.pt p)) ∧
    Cell.str "" ∉ csvHeader := by
  refine ⟨rfl, rfl, fun r p => ⟨rfl, rfl⟩, ?_⟩
  decide

/-- Claim C9.  The boundary polygon is built from the single literal
constant `mbc_coords`: a closed ring of 34 listed (longitude, latitude)
pairs — 33 vertices plus the repeated first vertex, so first and last
entries coincide — and the filtering stage consumes `mbc_polygon`
unchanged (the embedding is pure, so no stage can mutate it). -/
theorem c9_polygon_constant :
    mbc_polygon.exterior =
      mbc_coords.map (fun c => ({ x := c.1, y := c.2 } : Point)) ∧
    mbc_coords.length = 34 ∧
    mbc_coords.dropLast.length = 33 ∧
    mbc_coords.head? = mbc_coords.getLast? ∧
    ∀ g : GeoDataFrame, mbc_gdf g = spatialFilter g mbc_polygon :=
  ⟨rfl, rfl, rfl, rfl, fun _ => rfl⟩

/-- Claim C10.  On every non-null date with year < 2126 the century
correction is idempotent — after one application the year is below 2026,
so a second application changes nothing — and every date the
two-digit-year parse can produce has year < 2126. -/
theorem c10_idempotent (d : Date) (h : d.year < 2126) :
    correct_future_dates (correct_future_dates (some d)) =
      correct_future_dates (some d) ∧
    ∀ (s : String) (d' : Date), parseMDY s = some d' → d'.year < 2126 := by
  refine ⟨?_, fun s d' h' => parseMDY_year_lt s d' h'⟩
  by_cases h26 : 2026 ≤ d.year
  · simp [correct_future_dates, h26]
    omega
  · simp [correct_future_dates, h26]

/-- Witness for claim C10 at the parsed form of `01/15/47`. -/
theorem c10_idempotent_witness :
    correct_future_dates
        (correct_future_dates
          (some { year := 2047, month := 1, day := 15 })) =
      correct_future_dates (some { year := 2047, month := 1, day := 15 }) :=
  (c10_idempotent { year := 2047, month := 1, day := 15 } (by decide)).1
